import Mathlib

/-!
Verification of the InsightsMania orchestration script (src/app.py).

The program is a natural-language-to-SQL analytics assistant: per user turn it
asks a generative model for a SQL query (or one of two sentinel strings),
executes real SQL against a SQLite datastore, and asks the model for a prose
insight over non-empty results.

The two external collaborators are modelled as oracles passed in explicitly:
  - the generative model (`google.generativeai` `GenerativeModel.generate_content`)
    is a function `Model := List String → String` from the content list to the
    response text;
  - the SQLite driver plus datastore are a semantics function
    `DBSemantics : DBState → String → Except DBError (List Row) × DBState`
    giving, for a datastore state and a SQL text, either the ordered rows or a
    database error, together with the resulting datastore state.

Everything else — the sentinel comparisons, the branch structure, the exact
user-visible strings, the session-history appends, what is passed to each
collaborator, whether the connection is closed, and which exceptions escape —
is embedded from src/app.py line by line.  Python floating-point row values are
modelled as `Rat` (no claim computes with them); Python's `str()` rendering of
a float is therefore approximate, which no theorem below depends on.
-/

namespace InsightsMania

/-- A scalar value in a result row: SQLite text, integer, real, or NULL
(reals as `Rat`, see the file comment). -/
inductive Scalar
  | text (s : String)
  | int (n : Int)
  | real (q : Rat)
  | null
deriving DecidableEq, Repr

/-- A result row: an ordered tuple of scalars (a Python `tuple` from the
`sqlite3` cursor). -/
abbrev Row := List Scalar

/-- The datastore state: the contents of the single `customer` table
(src/app.py lines 40-60 describe its schema). -/
abbrev DBState := List Row

/-- A database error raised by the driver (`sqlite3` exception), carrying the
driver message. -/
structure DBError where
  msg : String
deriving DecidableEq, Repr

/-- The SQLite driver plus datastore, as an opaque semantics: a datastore state
and a SQL text give either the ordered result rows or a database error, plus
the next datastore state.  This is the external collaborator of §6 of the spec;
the executor below issues text against it unmodified. -/
abbrev DBSemantics := DBState → String → Except DBError (List Row) × DBState

/-- The generative-model collaborator: `generate_content` takes a list of
content strings and returns the response text. -/
abbrev Model := List String → String

/-- Outcome of one `get_sql_results` call, instrumented with the facts the
spec talks about: the rows or the propagated error, the datastore state
afterwards, which file was connected to, whether `conn.close()` was reached,
and exactly which statement texts were handed to the driver. -/
structure ExecOutcome where
  result : Except DBError (List Row)
  dbAfter : DBState
  connectedTo : String
  connOpened : Bool
  connClosed : Bool
  executed : List String
deriving Repr

/-- Embeds `get_sql_results` (src/app.py lines 81-92):

```
conn = sqlite3.connect('customer.db')
cursor = conn.cursor()
results = cursor.execute(query)
rows = []
for row in results:
    rows.append(row)
conn.close()
return rows
```

`cursor.execute(query)` hands the text `query` to the driver as given; on
success the rows are materialized in order and `conn.close()` runs; when the
driver raises, the exception propagates immediately — there is no
`try`/`finally`, so `conn.close()` is never reached on the error path. -/
def get_sql_results (sem : DBSemantics) (db : DBState) (query : String) : ExecOutcome :=
  match (sem db query).1 with
  | Except.error e =>
      { result := Except.error e, dbAfter := (sem db query).2, connectedTo := "customer.db",
        connOpened := true, connClosed := false, executed := [query] }
  | Except.ok rows =>
      { result := Except.ok rows, dbAfter := (sem db query).2, connectedTo := "customer.db",
        connOpened := true, connClosed := true, executed := [query] }

/-- Unfolding lemma: `get_sql_results` when the driver raises. -/
theorem get_sql_results_error {sem : DBSemantics} {db : DBState} {query : String}
    {e : DBError} (h : (sem db query).1 = Except.error e) :
    get_sql_results sem db query =
      { result := Except.error e, dbAfter := (sem db query).2,
        connectedTo := "customer.db", connOpened := true, connClosed := false,
        executed := [query] } := by
  unfold get_sql_results
  rw [h]

/-- Unfolding lemma: `get_sql_results` when the driver succeeds. -/
theorem get_sql_results_ok {sem : DBSemantics} {db : DBState} {query : String}
    {rows : List Row} (h : (sem db query).1 = Except.ok rows) :
    get_sql_results sem db query =
      { result := Except.ok rows, dbAfter := (sem db query).2,
        connectedTo := "customer.db", connOpened := true, connClosed := true,
        executed := [query] } := by
  unfold get_sql_results
  rw [h]

/-- The NL→SQL prompt of `get_sql_query` (src/app.py lines 20-77), an f-string
interpolating the natural-language question.  Transcribed from the source; the
double-quote characters of the source are escaped, and the ASCII apostrophes
and literal braces it does not contain need no escaping. -/
def sqlPromptText (query : String) : String :=
"
    You are a highly skilled Marketing Analytics Assistant.

    Your job is to translate natural language business questions from marketing analysts into optimized SQL queries that retrieve actionable insights from a SQLite database.

    📊 The insights may involve:
    - Retrieving existing metrics like ROAS, CTR, CPC, CPA
    - Grouping data by platform, campaign, hour, or ad type
    - Filtering by date, platform, segment, or SKU
    - Generating derived metrics using basic formulas, such as:
        - ROAS = revenue / spend
        - CTR = (clicks / impressions) * 100
        - CPC = spend / clicks
        - CPA = spend / conversions
        - CPM = (spend / impressions) * 1000

    You must ONLY use fields and datatypes from the schema below and derive metrics using them. NEVER assume the existence of any field not listed.

    🗂 Table schema:

    CREATE TABLE customer (
        customer_id VARCHAR(20),
        platform VARCHAR(20),
        segment VARCHAR(20),
        SKU VARCHAR(50),
        hour INT,
        date DATE,
        ROAS FLOAT,
        CTR FLOAT,
        CPC FLOAT,
        CPM FLOAT,
        CPA FLOAT,
        impressions INT,
        clicks FLOAT,
        conversions FLOAT,
        spend FLOAT,
        revenue FLOAT,
        ad_name VARCHAR(100),
        ad_type VARCHAR(20),
        campaign_id VARCHAR(50)
    );

    📌 Guidelines:
    - Use **only** fields in the schema.
    - Return **only** a valid SQLite SQL query in the plain text format without any ``` or quotations.
    - If an insight can be computed from existing fields (e.g., custom ROI or cost efficiency), derive it correctly.
    - NEVER hallucinate table names or column names.
    - String and date values must be wrapped in single quotes.
    - Use `AS` to name computed columns clearly (e.g., `spend / conversions AS CPA`).
    - NEVER return anything other than the SQL query.
    - More importantly, if the query is invalid, return \"INVALID QUERY\".
    - If the query is valid but does not return any results, return \"NO RESULTS\".
    - If the query is valid and returns results, return the SQL query.
    🗣 Natural Language Request:
    \"" ++ query ++ "\"

💡  SQL Insight Output (only the SQL query):
    "

/-- Embeds `get_sql_query` (src/app.py lines 16-79): builds the NL→SQL prompt
and calls `model.generate_content([prompt, query])`, returning `response.text`
— the model output as untyped text, passed back verbatim. -/
def get_sql_query (model : Model) (query : String) : String :=
  model [sqlPromptText query, query]

/-- Python `repr` of one scalar, as it appears inside `str(results)`
(text values single-quoted, `None` for NULL; float rendering approximate,
see the file comment). -/
def pyReprScalar : Scalar → String
  | Scalar.text s => "\x27" ++ s ++ "\x27"
  | Scalar.int n => toString n
  | Scalar.real q => toString q
  | Scalar.null => "None"

/-- Python `repr` of one row tuple (a one-element tuple keeps Python's
trailing comma). -/
def pyReprRow (r : Row) : String :=
  if r.length = 1 then
    "(" ++ String.intercalate ", " (r.map pyReprScalar) ++ ",)"
  else
    "(" ++ String.intercalate ", " (r.map pyReprScalar) ++ ")"

/-- Python `str` of the list of row tuples, as the f-string of
`generate_insights` renders the `results` argument. -/
def pyStrRows (rs : List Row) : String :=
  "[" ++ String.intercalate ", " (rs.map pyReprRow) ++ "]"

/-- The insight prompt of `generate_insights` (src/app.py lines 98-126), an
f-string interpolating the user question, the generated SQL and the rendered
result rows.  Transcribed from the source; ASCII apostrophes are written
escaped. -/
def insightPromptText (user_query : String) (sql_query : String) (results : String) : String :=
"
    You are a senior marketing analyst assistant.

    Your role is to interpret the output of SQL queries run on advertising data. The result represents marketing KPIs (such as ROAS, CTR, CPC, CPA, spend, revenue, conversions, impressions) from the `customer` table of a SQLite database.

    Your task:
    - Analyze the tuple of results given to you.
    - Provide clear, concise, and actionable **marketing insights** in plain English.
    - Focus on what the numbers *mean* — e.g., which platform performed best, any efficiency issues, anomalies, or optimization opportunities.

    DO:
    - Highlight top-performing platforms, campaigns, or ad types.
    - Mention underperformers or efficiency concerns (e.g., high CPA or low ROAS).
    - Suggest what action a marketer might consider next (e.g., scale, pause, test creatives).
    - Mention derived metrics like conversion rate, ROAS improvements, etc., if possible.

    DON’T:
    - Repeat raw numbers unless it\x27s meaningful.
    - Include SQL or technical explanations.
    - Hallucinate metrics not present in the result.

    Here is the user\x27s query based on which the below SQL output has been generated:
    " ++ user_query ++ "
    and the sql query prepared by the LLM by taking the semantic context of the user\x27s query:
    " ++ sql_query ++ "
    Here is the result of the SQL query:
    " ++ results ++ "
    Please write your marketing insight based on this result:
    "

/-- Embeds `generate_insights` (src/app.py lines 94-128): builds the insight
prompt from the original question, the SQL text and the (stringified) result
rows, calls `model.generate_content([prompt])` and returns its text. -/
def generate_insights (model : Model) (user_query : String) (sql_query : String)
    (results : List Row) : String :=
  model [insightPromptText user_query sql_query (pyStrRows results)]

/-- A chat role in the session history (`st.session_state.messages` entries
carry `"role": "user"` or `"role": "assistant"`). -/
inductive Role
  | user
  | assistant
deriving DecidableEq, Repr

/-- One entry of the session history `st.session_state.messages`. -/
structure Message where
  role : Role
  content : String
deriving DecidableEq, Repr

/-- One rendering call issued by the turn, in order: `st.error`, `st.warning`,
`st.success`, `st.markdown`, `st.code(…, language="sql")`, `st.dataframe`. -/
inductive Display
  | errorMsg (s : String)
  | warningMsg (s : String)
  | successMsg (s : String)
  | markdownMsg (s : String)
  | codeBlock (s : String)
  | dataframe (rows : List Row)
deriving DecidableEq, Repr

/-- Whether a rendering call is one of the three human-readable message
classes of the spec: error, warning, or success.  Markdown captions, code
blocks and dataframes are not message-class output. -/
def Display.isHumanMessage : Display → Bool
  | Display.errorMsg _ => true
  | Display.warningMsg _ => true
  | Display.successMsg _ => true
  | Display.markdownMsg _ => false
  | Display.codeBlock _ => false
  | Display.dataframe _ => false

/-- A Python exception escaping the turn: a database error raised by the
driver inside `get_sql_results`, or a `NameError` from evaluating an unbound
local name. -/
inductive PyError
  | dbError (e : DBError)
  | nameError (n : String)
deriving DecidableEq, Repr

/-- Everything observable about one turn of `main`: the session history after
the turn, the rendering calls in order, the SQL texts handed to
`get_sql_results`, the `(user_query, sql_query, results)` triples handed to
`generate_insights`, the datastore state afterwards, and the exception, if
any, that escaped the turn. -/
structure TurnResult where
  history : List Message
  displayed : List Display
  executorCalls : List String
  insightCalls : List (String × String × List Row)
  dbAfter : DBState
  raised : Option PyError
deriving Repr

/-- The history-append expression of src/app.py line 171:
`insight_response if results else "No data to generate insights."`.
`insight_response` is a local name bound only on the non-empty branch, so it
is modelled as an `Option String`, `none` meaning the name is unbound; the
conditional tests the truthiness of `results` first, so `none` is returned
exactly when Python would raise `NameError`. -/
def histAppendContent (results : List Row) (insight_response : Option String) :
    Option String :=
  if results = [] then some "No data to generate insights." else insight_response

/-- Embeds one turn of `main` (src/app.py lines 141-171), from
`user_input = st.chat_input(...)` on.  `if user_input:` treats the empty
string (and `None`) as falsy, doing nothing.  Otherwise the user message is
appended to the session history, the Query Generator is called, and the turn
branches on exact string comparison with the two sentinels; on real SQL the
Query Executor runs, a driver error propagates out of `main` uncaught
(skipping the history append of line 171), and otherwise the turn branches on
the actual result rows, calling the Insight Generator only when they are
non-empty, and finally appends the assistant message of line 171. -/
def runTurn (model : Model) (sem : DBSemantics) (db : DBState)
    (history : List Message) (user_input : String) : TurnResult :=
  if user_input = "" then
    { history := history, displayed := [], executorCalls := [], insightCalls := [],
      dbAfter := db, raised := none }
  else
    let history1 := history ++ [{ role := Role.user, content := user_input }]
    let sql_query := get_sql_query model user_input
    if sql_query = "INVALID QUERY" then
      { history := history1,
        displayed := [Display.errorMsg "Invalid SQL query. Please try again."],
        executorCalls := [], insightCalls := [], dbAfter := db, raised := none }
    else if sql_query = "NO RESULTS" then
      { history := history1,
        displayed := [Display.warningMsg "No results found for this query."],
        executorCalls := [], insightCalls := [], dbAfter := db, raised := none }
    else
      let shown := [Display.markdownMsg "**Generated SQL Query:**",
        Display.codeBlock sql_query]
      let ex := get_sql_results sem db sql_query
      match ex.result with
      | Except.error e =>
          { history := history1, displayed := shown, executorCalls := [sql_query],
            insightCalls := [], dbAfter := ex.dbAfter,
            raised := some (PyError.dbError e) }
      | Except.ok results =>
          if results = [] then
            let shown2 := shown ++ [Display.warningMsg "No data returned for this query."]
            match histAppendContent results none with
            | some c =>
                { history := history1 ++ [{ role := Role.assistant, content := c }],
                  displayed := shown2, executorCalls := [sql_query],
                  insightCalls := [], dbAfter := ex.dbAfter, raised := none }
            | none =>
                { history := history1, displayed := shown2,
                  executorCalls := [sql_query], insightCalls := [],
                  dbAfter := ex.dbAfter,
                  raised := some (PyError.nameError "insight_response") }
          else
            let insight_response := generate_insights model user_input sql_query results
            let shown2 := shown ++ [Display.markdownMsg "**SQL Output:**",
              Display.dataframe results, Display.markdownMsg "💡**Insight:**",
              Display.successMsg insight_response]
            match histAppendContent results (some insight_response) with
            | some c =>
                { history := history1 ++ [{ role := Role.assistant, content := c }],
                  displayed := shown2, executorCalls := [sql_query],
                  insightCalls := [(user_input, sql_query, results)],
                  dbAfter := ex.dbAfter, raised := none }
            | none =>
                { history := history1, displayed := shown2,
                  executorCalls := [sql_query],
                  insightCalls := [(user_input, sql_query, results)],
                  dbAfter := ex.dbAfter,
                  raised := some (PyError.nameError "insight_response") }

/-- Branch lemma: the Generator returned exactly `"INVALID QUERY"`. -/
theorem runTurn_invalid (model : Model) (sem : DBSemantics) (db : DBState)
    (history : List Message) (q : String) (hne : q ≠ "")
    (h : get_sql_query model q = "INVALID QUERY") :
    runTurn model sem db history q =
      { history := history ++ [{ role := Role.user, content := q }],
        displayed := [Display.errorMsg "Invalid SQL query. Please try again."],
        executorCalls := [], insightCalls := [], dbAfter := db, raised := none } := by
  simp [runTurn, hne, h]

/-- Branch lemma: the Generator returned exactly `"NO RESULTS"`. -/
theorem runTurn_noresults (model : Model) (sem : DBSemantics) (db : DBState)
    (history : List Message) (q : String) (hne : q ≠ "")
    (h : get_sql_query model q = "NO RESULTS") :
    runTurn model sem db history q =
      { history := history ++ [{ role := Role.user, content := q }],
        displayed := [Display.warningMsg "No results found for this query."],
        executorCalls := [], insightCalls := [], dbAfter := db, raised := none } := by
  simp [runTurn, hne, h]

/-- Branch lemma: real SQL was executed and the driver raised. -/
theorem runTurn_execError (model : Model) (sem : DBSemantics) (db : DBState)
    (history : List Message) (q : String) {e : DBError} (hne : q ≠ "")
    (h1 : get_sql_query model q ≠ "INVALID QUERY")
    (h2 : get_sql_query model q ≠ "NO RESULTS")
    (he : (sem db (get_sql_query model q)).1 = Except.error e) :
    runTurn model sem db history q =
      { history := history ++ [{ role := Role.user, content := q }],
        displayed := [Display.markdownMsg "**Generated SQL Query:**",
          Display.codeBlock (get_sql_query model q)],
        executorCalls := [get_sql_query model q], insightCalls := [],
        dbAfter := (sem db (get_sql_query model q)).2,
        raised := some (PyError.dbError e) } := by
  simp [runTurn, hne, h1, h2, get_sql_results_error he]

/-- Branch lemma: real SQL was executed and returned zero rows. -/
theorem runTurn_execEmpty (model : Model) (sem : DBSemantics) (db : DBState)
    (history : List Message) (q : String) (hne : q ≠ "")
    (h1 : get_sql_query model q ≠ "INVALID QUERY")
    (h2 : get_sql_query model q ≠ "NO RESULTS")
    (hok : (sem db (get_sql_query model q)).1 = Except.ok []) :
    runTurn model sem db history q =
      { history := history ++ [{ role := Role.user, content := q },
          { role := Role.assistant, content := "No data to generate insights." }],
        displayed := [Display.markdownMsg "**Generated SQL Query:**",
          Display.codeBlock (get_sql_query model q),
          Display.warningMsg "No data returned for this query."],
        executorCalls := [get_sql_query model q], insightCalls := [],
        dbAfter := (sem db (get_sql_query model q)).2, raised := none } := by
  simp [runTurn, hne, h1, h2, get_sql_results_ok hok, histAppendContent]

/-- Branch lemma: real SQL was executed and returned at least one row. -/
theorem runTurn_execRows (model : Model) (sem : DBSemantics) (db : DBState)
    (history : List Message) (q : String) {rows : List Row} (hne : q ≠ "")
    (h1 : get_sql_query model q ≠ "INVALID QUERY")
    (h2 : get_sql_query model q ≠ "NO RESULTS")
    (hok : (sem db (get_sql_query model q)).1 = Except.ok rows)
    (hnz : rows ≠ []) :
    runTurn model sem db history q =
      { history := history ++ [{ role := Role.user, content := q },
          { role := Role.assistant,
            content := generate_insights model q (get_sql_query model q) rows }],
        displayed := [Display.markdownMsg "**Generated SQL Query:**",
          Display.codeBlock (get_sql_query model q),
          Display.markdownMsg "**SQL Output:**", Display.dataframe rows,
          Display.markdownMsg "💡**Insight:**",
          Display.successMsg (generate_insights model q (get_sql_query model q) rows)],
        executorCalls := [get_sql_query model q],
        insightCalls := [(q, get_sql_query model q, rows)],
        dbAfter := (sem db (get_sql_query model q)).2, raised := none } := by
  simp [runTurn, hne, h1, h2, get_sql_results_ok hok, histAppendContent, hnz]

/-! Concrete oracle instances used to evaluate the theorems below on
explicit inputs. -/

/-- A generative model that always answers the exact `INVALID QUERY` sentinel. -/
def invalidModel : Model := fun _ => "INVALID QUERY"

/-- A generative model that answers the sentinel in lower case — not an exact
match, so the controller treats it as SQL text. -/
def lowerCaseModel : Model := fun _ => "invalid query"

/-- A generative model that answers a fixed SQL text naming a non-existent
column. -/
def badColumnModel : Model := fun _ => "SELECT boom FROM customer"

/-- A generative model that answers a fixed `SELECT *` text. -/
def selectAllModel : Model := fun _ => "SELECT * FROM customer"

/-- A driver semantics that raises `no such column: boom` on every statement,
leaving the datastore unchanged. -/
def errSem : DBSemantics := fun db _ => (Except.error { msg := "no such column: boom" }, db)

/-- A driver semantics for a full-table read: every statement returns the
table contents, datastore unchanged. -/
def selectAllSem : DBSemantics := fun db _ => (Except.ok db, db)

/-- A driver semantics whose statements succeed with zero rows, datastore
unchanged. -/
def emptySem : DBSemantics := fun db _ => (Except.ok [], db)

/-- A driver semantics of a mutating statement: succeeds with zero rows and
empties the table. -/
def dropSem : DBSemantics := fun _ _ => (Except.ok [], [])

/-- A one-row demo `customer` table. -/
def demoTable : DBState := [[Scalar.text "Meta", Scalar.int 4]]

/-- C1: when the Query Generator's output is exactly `"INVALID QUERY"` the turn
terminates in the INVALID state — one error message, no Query Executor call,
no Insight Generator call, no exception — and when it is exactly
`"NO RESULTS"` the turn terminates in the NO_RESULTS_SENTINEL state — one
warning, again without invoking the Executor; the comparison performed by the
controller is exact string equality on the untyped generator output. -/
theorem C1_sentinel_shortcircuit (model : Model) (sem : DBSemantics) (db : DBState)
    (history : List Message) (q : String) (hne : q ≠ "") :
    (get_sql_query model q = "INVALID QUERY" →
      (runTurn model sem db history q).executorCalls = [] ∧
      (runTurn model sem db history q).insightCalls = [] ∧
      (runTurn model sem db history q).displayed =
        [Display.errorMsg "Invalid SQL query. Please try again."] ∧
      (runTurn model sem db history q).raised = none) ∧
    (get_sql_query model q = "NO RESULTS" →
      (runTurn model sem db history q).executorCalls = [] ∧
      (runTurn model sem db history q).insightCalls = [] ∧
      (runTurn model sem db history q).displayed =
        [Display.warningMsg "No results found for this query."] ∧
      (runTurn model sem db history q).raised = none) := by
  constructor
  · intro h
    rw [runTurn_invalid model sem db history q hne h]
    exact ⟨rfl, rfl, rfl, rfl⟩
  · intro h
    rw [runTurn_noresults model sem db history q hne h]
    exact ⟨rfl, rfl, rfl, rfl⟩

/-- C1 witness: a model answering the INVALID QUERY sentinel on a concrete
off-topic question never reaches the Executor. -/
theorem C1_sentinel_shortcircuit_witness :
    "What is the capital of France?" ≠ "" ∧
    (runTurn invalidModel selectAllSem demoTable []
        "What is the capital of France?").executorCalls = [] :=
  ⟨by decide, ((C1_sentinel_shortcircuit invalidModel selectAllSem demoTable []
      "What is the capital of France?" (by decide)).1 rfl).1⟩

/-- C2 counterexample: `get_sql_results` has no `try`/`finally`, so when the
driver raises (here: a missing column) the exception propagates with the
connection still open — `conn.close()` is not reached, refuting
"closes the connection unconditionally, even when execution raises". -/
theorem C2_counterexample :
    (get_sql_results errSem demoTable "SELECT boom FROM customer").result
        = Except.error { msg := "no such column: boom" } ∧
    (get_sql_results errSem demoTable "SELECT boom FROM customer").connClosed = false :=
  ⟨rfl, rfl⟩

/-- C2 (amended): the Query Executor opens a connection to `customer.db`,
hands the statement text to the driver as given, and materializes the driver's
outcome; it closes the connection before returning exactly when execution
succeeds — when the driver raises, the error propagates without the
connection being closed. -/
theorem C2_close_only_on_success (sem : DBSemantics) (db : DBState) (q : String) :
    (get_sql_results sem db q).connOpened = true ∧
    (get_sql_results sem db q).connectedTo = "customer.db" ∧
    (get_sql_results sem db q).result = (sem db q).1 ∧
    (get_sql_results sem db q).executed = [q] ∧
    ((get_sql_results sem db q).connClosed = true ↔
      ∃ rows : List Row, (sem db q).1 = Except.ok rows) := by
  cases he : (sem db q).1 with
  | error e =>
      rw [get_sql_results_error he]
      refine ⟨rfl, rfl, rfl, rfl, ?_⟩
      simp
  | ok rows =>
      rw [get_sql_results_ok he]
      refine ⟨rfl, rfl, rfl, rfl, ?_⟩
      simp

/-- C2 amended-claim evaluation at a concrete success input: the connection is
closed there because execution succeeded. -/
theorem C2_close_only_on_success_witness :
    (get_sql_results selectAllSem demoTable "SELECT * FROM customer").connClosed = true ↔
      ∃ rows : List Row,
        (selectAllSem demoTable "SELECT * FROM customer").1 = Except.ok rows :=
  (C2_close_only_on_success selectAllSem demoTable "SELECT * FROM customer").2.2.2.2

/-- C3 counterexample: on a turn where the driver raises, the exception escapes
`main` (there is no handler), and the controller renders zero error / warning /
success messages on that terminal branch — refuting "every terminal branch
produces exactly one human-readable message". -/
theorem C3_counterexample :
    (runTurn badColumnModel errSem demoTable [] "show me the boom column").raised
        = some (PyError.dbError { msg := "no such column: boom" }) ∧
    ((runTurn badColumnModel errSem demoTable []
        "show me the boom column").displayed.countP Display.isHumanMessage) = 0 := by
  rw [runTurn_execError badColumnModel errSem demoTable [] "show me the boom column"
    (by decide) (by decide) (by decide) rfl]
  exact ⟨rfl, rfl⟩

/-- C3 (amended): a Database Error raised by the Query Executor is not
swallowed — it propagates out of the Session Controller as an uncaught
exception, the turn aborts with no Insight Generator call, and the controller
itself renders no error / warning / success message on that branch (what the
end user then sees is the framework's uncaught-exception surface, not a
controller message); every non-raising terminal branch of a non-empty turn
renders exactly one message of class error, warning or success. -/
theorem C3_error_propagation (model : Model) (sem : DBSemantics) (db : DBState)
    (history : List Message) (q : String) (hne : q ≠ "") :
    (∀ e : DBError, (sem db (get_sql_query model q)).1 = Except.error e →
        get_sql_query model q ≠ "INVALID QUERY" →
        get_sql_query model q ≠ "NO RESULTS" →
        (runTurn model sem db history q).raised = some (PyError.dbError e) ∧
        (runTurn model sem db history q).insightCalls = [] ∧
        ((runTurn model sem db history q).displayed.countP Display.isHumanMessage) = 0) ∧
    ((runTurn model sem db history q).raised = none →
        ((runTurn model sem db history q).displayed.countP Display.isHumanMessage) = 1) := by
  constructor
  · intro e he h1 h2
    rw [runTurn_execError model sem db history q hne h1 h2 he]
    exact ⟨rfl, rfl, rfl⟩
  · intro hr
    by_cases h1 : get_sql_query model q = "INVALID QUERY"
    · rw [runTurn_invalid model sem db history q hne h1]
      rfl
    · by_cases h2 : get_sql_query model q = "NO RESULTS"
      · rw [runTurn_noresults model sem db history q hne h2]
        rfl
      · cases he : (sem db (get_sql_query model q)).1 with
        | error e =>
            rw [runTurn_execError model sem db history q hne h1 h2 he] at hr
            exact absurd hr (by simp)
        | ok rows =>
            cases rows with
            | nil =>
                rw [runTurn_execEmpty model sem db history q hne h1 h2 he]
                rfl
            | cons r rs =>
                rw [runTurn_execRows model sem db history q hne h1 h2 he (by simp)]
                rfl

/-- C3 amended-claim evaluation at the concrete raising input: the turn aborts
with the propagated driver error and no Insight call. -/
theorem C3_error_propagation_witness :
    "show me the boom column" ≠ "" ∧
    (runTurn badColumnModel errSem demoTable [] "show me the boom column").insightCalls = [] :=
  ⟨by decide, ((C3_error_propagation badColumnModel errSem demoTable []
      "show me the boom column" (by decide)).1 { msg := "no such column: boom" }
      rfl (by decide) (by decide)).2.1⟩

/-- C4: any Generator output that equals neither sentinel is treated as
literal SQL text: the Session Controller hands exactly that string — character
for character — to the Query Executor (its one executor call of the turn), and
the Executor in turn hands exactly that string to the driver. -/
theorem C4_passthrough (model : Model) (sem : DBSemantics) (db : DBState)
    (history : List Message) (q : String) (hne : q ≠ "")
    (h1 : get_sql_query model q ≠ "INVALID QUERY")
    (h2 : get_sql_query model q ≠ "NO RESULTS") :
    (runTurn model sem db history q).executorCalls = [get_sql_query model q] ∧
    (get_sql_results sem db (get_sql_query model q)).executed = [get_sql_query model q] := by
  constructor
  · cases he : (sem db (get_sql_query model q)).1 with
    | error e => rw [runTurn_execError model sem db history q hne h1 h2 he]
    | ok rows =>
        cases rows with
        | nil => rw [runTurn_execEmpty model sem db history q hne h1 h2 he]
        | cons r rs => rw [runTurn_execRows model sem db history q hne h1 h2 he (by simp)]
  · cases he : (sem db (get_sql_query model q)).1 with
    | error e => rw [get_sql_results_error he]
    | ok rows => rw [get_sql_results_ok he]

/-- C4 witness: a lower-case `invalid query` answer is not the exact sentinel,
so it is passed verbatim to the Executor. -/
theorem C4_passthrough_witness :
    "hello" ≠ "" ∧
    (runTurn lowerCaseModel selectAllSem demoTable [] "hello").executorCalls
      = ["invalid query"] :=
  ⟨by decide, (C4_passthrough lowerCaseModel selectAllSem demoTable [] "hello"
      (by decide) (by decide) (by decide)).1⟩

/-- C5: when executed SQL returns zero rows the turn terminates in the
EMPTY_RESULTS state: the "no data" warning is rendered, the Insight Generator
is never invoked, and no exception is raised — branching on the actual Result
Set (the arbitrary non-sentinel generator output carries no authority over
this branch). -/
theorem C5_empty_results_branch (model : Model) (sem : DBSemantics) (db : DBState)
    (history : List Message) (q : String) (hne : q ≠ "")
    (h1 : get_sql_query model q ≠ "INVALID QUERY")
    (h2 : get_sql_query model q ≠ "NO RESULTS")
    (hok : (sem db (get_sql_query model q)).1 = Except.ok []) :
    (runTurn model sem db history q).insightCalls = [] ∧
    (runTurn model sem db history q).displayed =
      [Display.markdownMsg "**Generated SQL Query:**",
        Display.codeBlock (get_sql_query model q),
        Display.warningMsg "No data returned for this query."] ∧
    (runTurn model sem db history q).raised = none := by
  rw [runTurn_execEmpty model sem db history q hne h1 h2 hok]
  exact ⟨rfl, rfl, rfl⟩

/-- C5 witness: a concrete executed query with an empty Result Set never
reaches the Insight Generator. -/
theorem C5_empty_results_branch_witness :
    "platform = NonExistentPlatform" ≠ "" ∧
    (runTurn selectAllModel emptySem demoTable []
        "platform = NonExistentPlatform").insightCalls = [] :=
  ⟨by decide, (C5_empty_results_branch selectAllModel emptySem demoTable []
      "platform = NonExistentPlatform" (by decide) (by decide) (by decide) rfl).1⟩

/-- C6: when executed SQL returns a non-empty Result Set, the Insight
Generator is invoked exactly once, receiving the full unmodified rows, the
original natural-language question, and the generated SQL text exactly as it
was executed; the turn terminates successfully. -/
theorem C6_insight_invocation (model : Model) (sem : DBSemantics) (db : DBState)
    (history : List Message) (q : String) (rows : List Row) (hne : q ≠ "")
    (h1 : get_sql_query model q ≠ "INVALID QUERY")
    (h2 : get_sql_query model q ≠ "NO RESULTS")
    (hok : (sem db (get_sql_query model q)).1 = Except.ok rows)
    (hnz : rows ≠ []) :
    (runTurn model sem db history q).insightCalls = [(q, get_sql_query model q, rows)] ∧
    (runTurn model sem db history q).executorCalls = [get_sql_query model q] ∧
    (runTurn model sem db history q).raised = none := by
  rw [runTurn_execRows model sem db history q hne h1 h2 hok hnz]
  exact ⟨rfl, rfl, rfl⟩

/-- C6 witness: a concrete non-empty Result Set reaches the Insight Generator
exactly once with the exact (question, SQL, rows) triple. -/
theorem C6_insight_invocation_witness :
    "show everything" ≠ "" ∧
    (runTurn selectAllModel selectAllSem demoTable [] "show everything").insightCalls
      = [("show everything", "SELECT * FROM customer", demoTable)] :=
  ⟨by decide, (C6_insight_invocation selectAllModel selectAllSem demoTable []
      "show everything" demoTable (by decide) (by decide) (by decide) rfl
      (by decide)).1⟩

/-- C7: the Query Executor is stateless between calls — running the same SQL
text twice in sequence against a datastore the first run left unchanged yields
row sequences that are equal as multisets of tuples. -/
theorem C7_executor_idempotent (sem : DBSemantics) (db : DBState) (q : String)
    (hunchanged : (get_sql_results sem db q).dbAfter = db)
    (rows1 rows2 : List Row)
    (h1 : (get_sql_results sem db q).result = Except.ok rows1)
    (h2 : (get_sql_results sem (get_sql_results sem db q).dbAfter q).result
        = Except.ok rows2) :
    (rows1 : Multiset Row) = (rows2 : Multiset Row) := by
  rw [hunchanged] at h2
  rw [h1] at h2
  cases h2
  rfl

/-- C7 witness: two consecutive full-table reads on the concrete demo table
return the same multiset of rows. -/
theorem C7_executor_idempotent_witness :
    (get_sql_results selectAllSem demoTable "SELECT * FROM customer").dbAfter = demoTable ∧
    (demoTable : Multiset Row) = (demoTable : Multiset Row) :=
  ⟨rfl, C7_executor_idempotent selectAllSem demoTable "SELECT * FROM customer" rfl
    demoTable demoTable rfl rfl⟩

/-- C8: the Query Executor imposes no whitelist or statement-kind check: for
every SQL text — mutating statements included — it hands exactly the given
text to the driver and adopts whatever datastore state the driver produces;
concretely, a destructive statement under a mutating driver semantics empties
the table, nothing in the Executor preventing it. -/
theorem C8_no_readonly_guard (sem : DBSemantics) (db : DBState) (q : String) :
    (get_sql_results sem db q).executed = [q] ∧
    (get_sql_results sem db q).dbAfter = (sem db q).2 ∧
    (get_sql_results dropSem demoTable "DROP TABLE customer").dbAfter = [] := by
  refine ⟨?_, ?_, rfl⟩
  · cases he : (sem db q).1 with
    | error e => rw [get_sql_results_error he]
    | ok rows => rw [get_sql_results_ok he]
  · cases he : (sem db q).1 with
    | error e => rw [get_sql_results_error he]
    | ok rows => rw [get_sql_results_ok he]

/-- C9: session-history invariant of one turn — the user's question is
appended exactly once, first; the two sentinel branches and the raising branch
append no assistant message (so consecutive user messages can occur across
turns); an assistant message is appended exactly on the turns whose SQL
executed without raising, carrying the insight text for a non-empty Result Set
and the fixed `No data to generate insights.` string for an empty one. -/
theorem C9_history_invariant (model : Model) (sem : DBSemantics) (db : DBState)
    (history : List Message) (q : String) (hne : q ≠ "") :
    (get_sql_query model q = "INVALID QUERY" →
        (runTurn model sem db history q).history
          = history ++ [{ role := Role.user, content := q }]) ∧
    (get_sql_query model q = "NO RESULTS" →
        (runTurn model sem db history q).history
          = history ++ [{ role := Role.user, content := q }]) ∧
    (∀ e : DBError, get_sql_query model q ≠ "INVALID QUERY" →
        get_sql_query model q ≠ "NO RESULTS" →
        (sem db (get_sql_query model q)).1 = Except.error e →
        (runTurn model sem db history q).history
          = history ++ [{ role := Role.user, content := q }]) ∧
    (get_sql_query model q ≠ "INVALID QUERY" →
        get_sql_query model q ≠ "NO RESULTS" →
        (sem db (get_sql_query model q)).1 = Except.ok [] →
        (runTurn model sem db history q).history
          = history ++ [{ role := Role.user, content := q },
              { role := Role.assistant, content := "No data to generate insights." }]) ∧
    (∀ rows : List Row, get_sql_query model q ≠ "INVALID QUERY" →
        get_sql_query model q ≠ "NO RESULTS" →
        (sem db (get_sql_query model q)).1 = Except.ok rows → rows ≠ [] →
        (runTurn model sem db history q).history
          = history ++ [{ role := Role.user, content := q },
              { role := Role.assistant,
                content := generate_insights model q (get_sql_query model q) rows }]) := by
  refine ⟨?_, ?_, ?_, ?_, ?_⟩
  · intro h
    rw [runTurn_invalid model sem db history q hne h]
  · intro h
    rw [runTurn_noresults model sem db history q hne h]
  · intro e h1 h2 he
    rw [runTurn_execError model sem db history q hne h1 h2 he]
  · intro h1 h2 hok
    rw [runTurn_execEmpty model sem db history q hne h1 h2 hok]
  · intro rows h1 h2 hok hnz
    rw [runTurn_execRows model sem db history q hne h1 h2 hok hnz]

/-- C9 witness: a sentinel turn appends only the user message, so the history
ends with two consecutive user messages. -/
theorem C9_history_invariant_witness :
    "and in May?" ≠ "" ∧
    (runTurn invalidModel selectAllSem demoTable
        [{ role := Role.user, content := "show ROAS" }] "and in May?").history
      = [{ role := Role.user, content := "show ROAS" },
         { role := Role.user, content := "and in May?" }] :=
  ⟨by decide, (C9_history_invariant invalidModel selectAllSem demoTable
      [{ role := Role.user, content := "show ROAS" }] "and in May?" (by decide)).1 rfl⟩

/-- C10: the line-171 conditional `insight_response if results else "No data to
generate insights."` never evaluates the unbound `insight_response` name: on
every turn a `NameError` is impossible, the conditional yields the fixed
string whenever the Result Set is empty (whether or not the name is bound),
and the empty-Result-Set branch in particular completes the turn without any
exception. -/
theorem C10_no_unbound_name (model : Model) (sem : DBSemantics) (db : DBState)
    (history : List Message) (q : String) :
    (runTurn model sem db history q).raised ≠ some (PyError.nameError "insight_response") ∧
    (∀ insight_response : Option String,
        histAppendContent [] insight_response = some "No data to generate insights.") ∧
    (get_sql_query model q ≠ "INVALID QUERY" →
        get_sql_query model q ≠ "NO RESULTS" → q ≠ "" →
        (sem db (get_sql_query model q)).1 = Except.ok [] →
        (runTurn model sem db history q).raised = none) := by
  refine ⟨?_, ?_, ?_⟩
  · by_cases hne : q = ""
    · subst hne
      simp [runTurn]
    · by_cases h1 : get_sql_query model q = "INVALID QUERY"
      · rw [runTurn_invalid model sem db history q hne h1]
        simp
      · by_cases h2 : get_sql_query model q = "NO RESULTS"
        · rw [runTurn_noresults model sem db history q hne h2]
          simp
        · cases he : (sem db (get_sql_query model q)).1 with
          | error e =>
              rw [runTurn_execError model sem db history q hne h1 h2 he]
              simp
          | ok rows =>
              cases rows with
              | nil =>
                  rw [runTurn_execEmpty model sem db history q hne h1 h2 he]
                  simp
              | cons r rs =>
                  rw [runTurn_execRows model sem db history q hne h1 h2 he (by simp)]
                  simp
  · intro insight_response
    simp [histAppendContent]
  · intro h1 h2 hne hok
    rw [runTurn_execEmpty model sem db history q hne h1 h2 hok]

/-- C10 witness: a concrete empty-Result-Set turn completes with no
exception. -/
theorem C10_no_unbound_name_witness :
    (runTurn selectAllModel emptySem demoTable [] "list spends").raised = none :=
  (C10_no_unbound_name selectAllModel emptySem demoTable [] "list spends").2.2
    (by decide) (by decide) (by decide) rfl

end InsightsMania
